import Mathlib

/-!
The movies REST service of golang_restapi (`main.go`).

A shallow embedding of the four HTTP handlers of `main.go`, of the route table
built in `main`, and of the parts of the Go standard library, of `gorilla/mux`
and of the SQL database that the handlers observe.

* Go values: a `string` is a Lean `String`; a slice is `Slice α`, an optional
  list whose `none` is the nil slice (Go tells a nil slice from an empty one, and
  so does `encoding/json`); an `error` is `Option GoError`.
* The database is one table `movies` held as a list of rows in storage order,
  with the sequence that feeds the surrogate `id` column.  `SELECT *` yields
  the rows in list order, `INSERT` appends, `DELETE` filters.  Text equality in
  `WHERE movie_id = $1` is equality of strings.
* Every handler runs in the `Go` monad: a state of the database and the trace
  of observable effects, and either a normal return or a panic.
* Database failures are an input (`Faults`): which call of the handler returns
  a non-nil error.
-/

namespace MovieAPI

/-! ## Go values -/

/-- A Go `error` that is not nil, identified by its message. -/
structure GoError where
  msg : String
deriving DecidableEq

/-- A Go slice: `none` is the nil slice, `some xs` a non-nil slice holding `xs`. -/
abbrev Slice (α : Type) := Option (List α)

/-- Go `append(s, x)`: appending to the nil slice allocates a one-element slice. -/
def Slice.append {α : Type} (s : Slice α) (x : α) : Slice α :=
  match s with
  | none => some [x]
  | some xs => some (xs ++ [x])

/-- Go `len(s)`. -/
def Slice.len {α : Type} (s : Slice α) : Nat :=
  match s with
  | none => 0
  | some xs => xs.length

/-! ## Data model (`main.go`, lines 17-27) -/

/-- The struct `Movie`. -/
structure Movie where
  MovieID : String
  MovieName : String
deriving DecidableEq

/-- The struct `JsonResponse`; the defaults are Go zero values. -/
structure JsonResponse where
  «Type» : String := ""
  Data : Slice Movie := none
  Message : String := ""
deriving DecidableEq

/-! ## The database -/

/-- One row of table `movies`: surrogate `id`, then `movie_id`, `movie_name`. -/
structure Row where
  id : Int
  movie_id : String
  movie_name : String
deriving DecidableEq

/-- The table `movies` in storage order, and the next value of the `id` sequence. -/
structure DB where
  movies : List Row
  nextID : Int
deriving DecidableEq

/-- The four SQL statements that `main.go` issues, with their bound arguments. -/
inductive Stmt where
  | selectAll
  | insert (movie_id movie_name : String)
  | deleteWhere (movie_id : String)
  | deleteAll
deriving DecidableEq

/-- The statement text as written in `main.go`. -/
def Stmt.sql : Stmt → String
  | .selectAll => "SELECT * FROM movies"
  | .insert _ _ => "INSERT INTO movies(movie_id, movie_name) VALUES($1, $2) returning id;"
  | .deleteWhere _ => "DELETE FROM movies WHERE movie_id = $1"
  | .deleteAll => "DELETE FROM movies"

/-- The arguments bound to `$1`, `$2`. -/
def Stmt.args : Stmt → List String
  | .selectAll => []
  | .insert a b => [a, b]
  | .deleteWhere a => [a]
  | .deleteAll => []

/-- Effect of a statement on the table and the rows it returns. -/
def DB.exec (db : DB) : Stmt → DB × List Row
  | .selectAll => (db, db.movies)
  | .insert a b =>
      ({ movies := db.movies ++ [⟨db.nextID, a, b⟩], nextID := db.nextID + 1 },
       [⟨db.nextID, a, b⟩])
  | .deleteWhere a => ({ db with movies := db.movies.filter (fun row => row.movie_id ≠ a) }, [])
  | .deleteAll => ({ db with movies := [] }, [])

/-- Which database calls of one handler run fail.  `open_` is the error of
`sql.Open`, `stmt` the error of the statement (`Query`, `QueryRow(..).Scan`,
`Exec`), `next i` an error met by `rows.Next()` while fetching row `i` (it makes
`Next` return false and is kept for `rows.Err()`), `scan i` the error of
`rows.Scan` on row `i`. -/
structure Faults where
  open_ : Option GoError
  stmt : Option GoError
  next : Nat → Option GoError
  scan : Nat → Option GoError

/-- The database answers every call without error. -/
def noFaults : Faults :=
  { open_ := Option.none, stmt := Option.none,
    next := fun _ => Option.none, scan := fun _ => Option.none }

/-! ## Effects -/

/-- Observable effects of a handler, in program order. -/
inductive Event where
  | sqlOpen
  | sqlStmt (s : Stmt)
  | println (line : String)
  | encode (resp : JsonResponse)
deriving DecidableEq

/-- An event is a database access. -/
def Event.isDB : Event → Bool
  | .sqlOpen => true
  | .sqlStmt _ => true
  | _ => false

/-- State threaded through a handler. -/
structure World where
  db : DB
  trace : List Event
deriving DecidableEq

/-- How a Go function call ends: it returns, or it panics with an error. -/
inductive Outcome (α : Type) where
  | ret (a : α) (w : World)
  | panic (e : GoError) (w : World)

/-- A Go computation over the world. -/
def Go (α : Type) : Type := World → Outcome α

/-- Return without effect. -/
def Go.pure {α : Type} (a : α) : Go α := fun w => .ret a w

/-- Sequencing; a panic skips the rest. -/
def Go.bind {α β : Type} (m : Go α) (f : α → Go β) : Go β := fun w =>
  match m w with
  | .ret a w1 => f a w1
  | .panic e w1 => .panic e w1

instance : Monad Go where
  pure := Go.pure
  bind := Go.bind

/-- Record one effect. -/
def emit (e : Event) : Go Unit := fun w => .ret () { w with trace := w.trace ++ [e] }

/-- The world a call ends in. -/
def Outcome.world {α : Type} : Outcome α → World
  | .ret _ w => w
  | .panic _ w => w

/-- The error a call panicked with, if it did. -/
def Outcome.panicked {α : Type} : Outcome α → Option GoError
  | .ret _ _ => Option.none
  | .panic e _ => some e

/-- The envelopes encoded to the response writer, in order. -/
def envelopes (t : List Event) : List JsonResponse :=
  t.filterMap (fun e => match e with
    | .encode r => some r
    | _ => Option.none)

/-- The statements sent to the database, in order. -/
def statements (t : List Event) : List Stmt :=
  t.filterMap (fun e => match e with
    | .sqlStmt s => some s
    | _ => Option.none)

/-! ## The request -/

/-- What the handlers read of `*http.Request`: the parsed form (`r.Form`) and
the route variables that `mux` stored (`mux.Vars(r)`). -/
structure Request where
  Method : String
  Path : String
  Form : List (String × List String)
  Vars : List (String × String)
deriving DecidableEq

/-- Go `r.FormValue(key)`: the first value of `key`, or `""`. -/
def Request.FormValue (r : Request) (key : String) : String :=
  match r.Form.lookup key with
  | some (v :: _) => v
  | _ => ""

/-- Go `mux.Vars(r)[key]`: a missing key of a map reads as `""`. -/
def Request.Var (r : Request) (key : String) : String :=
  match r.Vars.lookup key with
  | some v => v
  | Option.none => ""

/-! ## `main.go`, lines 37-75 -/

/-- Function `checkErr`: panic on a non-nil error. -/
def checkErr (err : Option GoError) : Go Unit := fun w =>
  match err with
  | some e => .panic e w
  | Option.none => .ret () w

/-- Function `setupDB`: `sql.Open`, then `checkErr`. -/
def setupDB (env : Faults) : Go Unit := do
  emit .sqlOpen
  checkErr env.open_

/-- Function `printMessage`: three `fmt.Println`. -/
def printMessage (message : String) : Go Unit := do
  emit (.println "")
  emit (.println message)
  emit (.println "")

/-- One statement sent through the handle (`db.Query`, `db.QueryRow(..).Scan`,
`db.Exec`): the rows and the error it returns.  A failing statement leaves the
table as it was. -/
def dbRun (env : Faults) (s : Stmt) : Go (List Row × Option GoError) := fun w =>
  let w1 : World := { w with trace := w.trace ++ [.sqlStmt s] }
  match env.stmt with
  | some e => .ret ([], some e) w1
  | Option.none => .ret ((w.db.exec s).2, Option.none) { w1 with db := (w.db.exec s).1 }

/-! ## `GetMovies` (lines 78-104) -/

/-- The loop `for rows.Next() { rows.Scan(..); checkErr(err); movies = append(..) }`
from row index `i` on.  `rows.Next()` is false when the rows are exhausted and
also when fetching fails; the loop does not read `rows.Err()`. -/
def scanRows (env : Faults) : Nat → List Row → Slice Movie → Go (Slice Movie)
  | _, [], movies => pure movies
  | i, row :: rest, movies =>
    match env.next i with
    | some _ => pure movies
    | Option.none => do
      checkErr (env.scan i)
      scanRows env (i + 1) rest
        (movies.append { MovieID := row.movie_id, MovieName := row.movie_name })

/-- The handler `GetMovies`. -/
def GetMovies (env : Faults) (_r : Request) : Go Unit := do
  setupDB env
  printMessage "Getting Movies..."
  let (rows, err) ← dbRun env .selectAll
  checkErr err
  let movies ← scanRows env 0 rows Option.none
  let response : JsonResponse := { «Type» := "success", Data := movies }
  emit (.encode response)

/-! ## `CreateMovie` (lines 107-131) -/

/-- The handler `CreateMovie`. -/
def CreateMovie (env : Faults) (r : Request) : Go Unit := do
  let movieID := r.FormValue "movieid"
  let movieName := r.FormValue "moviename"
  let mut response : JsonResponse := {}
  if movieID = "" ∨ movieName = "" then
    response := { «Type» := "error", Message := "You are missing MovieID or MovieName" }
  else
    setupDB env
    printMessage "Inserting Movie into DB..."
    emit (.println ("Inserting new movie with ID: " ++ movieID ++ " and name: " ++ movieName))
    let (_, err) ← dbRun env (.insert movieID movieName)
    checkErr err
    response := { «Type» := "success", Message := "Movie has been successfully inserted" }
  emit (.encode response)

/-! ## `DeleteMovie` (lines 134-155) -/

/-- The handler `DeleteMovie`. -/
def DeleteMovie (env : Faults) (r : Request) : Go Unit := do
  let movieID := r.Var "movieID"
  let mut response : JsonResponse := {}
  if movieID = "" then
    response := { «Type» := "error", Message := "Missing Movie Id" }
  else
    setupDB env
    printMessage "Deleting movie from DB..."
    let (_, err) ← dbRun env (.deleteWhere movieID)
    checkErr err
    response := { «Type» := "success", Message := "Successfully deleted movie from DB" }
  emit (.encode response)

/-! ## `DeleteMovies` (lines 158-171) -/

/-- The handler `DeleteMovies`. -/
def DeleteMovies (env : Faults) (_r : Request) : Go Unit := do
  setupDB env
  printMessage "Deleting all movies..."
  let (_, err) ← dbRun env .deleteAll
  checkErr err
  printMessage "All movies have been deleted successfully"
  let response : JsonResponse :=
    { «Type» := "success", Message := "All movies have been deleted successfully" }
  emit (.encode response)

/-- One handler call on a table: the outcome, starting from an empty trace. -/
def handle (h : Faults → Request → Go Unit) (env : Faults) (r : Request) (db : DB) :
    Outcome Unit :=
  h env r { db := db, trace := [] }

/-! ## `encoding/json`: how the envelope is written

The response body is taken as a JSON document (a tree), the level at which keys,
`null` and arrays are told apart; the escaping of string characters lies below it.
`json.NewEncoder(w).Encode(v)` writes the document of `v` and a newline.
-/

/-- A JSON document. -/
inductive JSON where
  | null
  | str (s : String)
  | arr (items : List JSON)
  | obj (members : List (String × JSON))

/-- A struct field as `reflect` sees it: its Go name and its raw tag string. -/
structure StructField where
  Name : String
  Tag : String
deriving DecidableEq

/-- The double quote character. -/
def quoteChar : Char := Char.ofNat 0x22

/-- The backslash character. -/
def backslash : Char := Char.ofNat 0x5c

/-- The quoted value that follows `name:"` in a tag: the characters up to the
closing quote (a backslash keeps the next character), and the rest of the tag. -/
def scanQuoted : List Char → Option (List Char × List Char)
  | [] => Option.none
  | c :: cs =>
    if c = quoteChar then some ([], cs)
    else if c = backslash then
      match cs with
      | [] => Option.none
      | d :: ds => (scanQuoted ds).map (fun p => (c :: d :: p.1, p.2))
    else (scanQuoted cs).map (fun p => (c :: p.1, p.2))

/-- Characters that `reflect.StructTag.Lookup` accepts in a key: above space,
and none of colon, quote, DEL. -/
def tagNameChar (c : Char) : Bool :=
  decide (' ' < c) && c != ':' && c != quoteChar && c != Char.ofNat 0x7f

/-- Go `strconv.Unquote` of a double-quoted tag value, for a value without
escape sequences (a value with a backslash or a newline is refused here; no tag
of `main.go` has one). -/
def unquote (raw : List Char) : Option String :=
  if raw.any (fun c => c = backslash || c = Char.ofNat 0x0a) then Option.none
  else some (String.mk raw)

/-- The loop of `reflect.StructTag.Lookup`; every round consumes part of the tag,
so `fuel` of the tag's length is never exhausted. -/
def lookupTag (key : String) : Nat → List Char → Option String
  | 0, _ => Option.none
  | fuel + 1, tag =>
    let tag1 := tag.dropWhile (fun c => c = ' ')
    if tag1 = [] then Option.none
    else
      let name := tag1.takeWhile tagNameChar
      match tag1.dropWhile tagNameChar with
      | c1 :: c2 :: rest =>
        if name = [] ∨ c1 ≠ ':' ∨ c2 ≠ quoteChar then Option.none
        else
          match scanQuoted rest with
          | Option.none => Option.none
          | some (raw, tag2) =>
            if key = String.mk name then unquote raw
            else lookupTag key fuel tag2
      | _ => Option.none

/-- Go `reflect.StructTag.Get(key)`: the value for `key`, or `""`. -/
def StructField.Get (f : StructField) (key : String) : String :=
  match lookupTag key f.Tag.data.length f.Tag.data with
  | some v => v
  | Option.none => ""

/-- Go `encoding/json.isValidTag`: not empty, and only letters, digits and the
listed punctuation. -/
def isValidTag (s : List Char) : Bool :=
  !s.isEmpty &&
    s.all (fun c => "!#$%&()*+-./:;<=>?@[]^_\x7b|\x7d~ ".data.contains c || c.isAlphanum)

/-- The splitting of a `json` tag value at commas: the name, then the options. -/
def splitComma : List Char → List Char → List (List Char)
  | [], acc => [acc]
  | c :: cs, acc => if c = ',' then acc :: splitComma cs [] else splitComma cs (acc ++ [c])

/-- What `encoding/json` makes of a field: `none` when the tag is `-` (field
left out), else the key it is written under (the tag's name when valid, the Go
field name otherwise) and whether `omitempty` is set. -/
def jsonField (f : StructField) : Option (String × Bool) :=
  let tag := f.Get "json"
  if tag = "-" then Option.none
  else
    match splitComma tag.data [] with
    | [] => some (f.Name, false)
    | name :: opts =>
      some (if isValidTag name then String.mk name else f.Name,
            opts.contains "omitempty".data)

/-- The members of a struct's JSON object: each field with its encoded value
and whether that value is empty in the sense of `omitempty`. -/
def encodeStruct : List (StructField × JSON × Bool) → List (String × JSON)
  | [] => []
  | (f, v, empty) :: rest =>
    match jsonField f with
    | Option.none => encodeStruct rest
    | some (key, omitEmpty) =>
      if omitEmpty && empty then encodeStruct rest else (key, v) :: encodeStruct rest

/-- The fields of `Movie`, tags as written at lines 19-20. -/
def Movie.fields : List StructField :=
  [⟨"MovieID", "\"json:movieid\""⟩, ⟨"MovieName", "\"json:moviename\""⟩]

/-- The fields of `JsonResponse`, tags as written at lines 24-26. -/
def JsonResponse.fields : List StructField :=
  [⟨"Type", "json:\"type\""⟩, ⟨"Data", "json:\"data\""⟩, ⟨"Message", "json:\"message\""⟩]

/-- Pair the fields of a struct with their values. -/
def withValues (fs : List StructField) (vs : List (JSON × Bool)) :
    List (StructField × JSON × Bool) :=
  List.zipWith (fun f v => (f, v.1, v.2)) fs vs

/-- The JSON document of a `Movie`. -/
def Movie.encode (m : Movie) : JSON :=
  .obj (encodeStruct (withValues Movie.fields
    [(.str m.MovieID, m.MovieID = ""), (.str m.MovieName, m.MovieName = "")]))

/-- The JSON document of a `[]Movie`: `null` for the nil slice, else an array. -/
def encodeMovies : Slice Movie → JSON
  | Option.none => .null
  | some ms => .arr (ms.map Movie.encode)

/-- The JSON document of a `JsonResponse`. -/
def JsonResponse.encode (r : JsonResponse) : JSON :=
  .obj (encodeStruct (withValues JsonResponse.fields
    [(.str r.«Type», r.«Type» = ""), (encodeMovies r.Data, r.Data.len = 0),
     (.str r.Message, r.Message = "")]))

/-- The documents written to the response body, in order. -/
def body (t : List Event) : List JSON :=
  (envelopes t).map JsonResponse.encode

/-- Value of a member of a JSON object, when the document is an object with
that key. -/
def JSON.member (key : String) : JSON → Option JSON
  | .obj ms => ms.lookup key
  | _ => Option.none

/-! ## The router (`main`, lines 47-61)

`gorilla/mux` tries the routes in the order of registration; a route matches
when its path template matches the whole request path and the method is one of
its methods.  A template variable `{name}` stands for the pattern `[^/]+`.
(`ServeHTTP` answers a path that is not clean with a redirect before matching;
that only removes requests from those dispatched.)
-/

/-- The four handlers, as values of the route table. -/
inductive HandlerId where
  | GetMovies
  | CreateMovie
  | DeleteMovie
  | DeleteMovies
deriving DecidableEq

/-- A piece of a path template: literal text, or a variable. -/
inductive Piece where
  | lit (text : List Char)
  | var (name : List Char)
deriving DecidableEq

/-- Split a template at its braces; `inVar` tells whether `acc` collects a
variable name.  A template with an open brace at its end has no parse. -/
def parseTemplate : List Char → Bool → List Char → Option (List Piece)
  | [], inVar, acc =>
    if inVar then Option.none else some (if acc = [] then [] else [.lit acc])
  | c :: cs, inVar, acc =>
    if !inVar && c = '\x7b' then
      (parseTemplate cs true []).map
        (fun ps => if acc = [] then ps else .lit acc :: ps)
    else if inVar && c = '\x7d' then
      (parseTemplate cs false []).map (fun ps => .var acc :: ps)
    else parseTemplate cs inVar (acc ++ [c])

/-- Match a whole path against the pieces: a literal must be next in the path;
a variable takes the longest non-empty run without `/`.  (For a variable that
is followed by the end of the template or by a `/`, as in `main.go`, this is
the match of the anchored regular expression.) -/
def matchPieces : List Piece → List Char → Option (List (String × String))
  | [], path => if path = [] then some [] else Option.none
  | .lit text :: ps, path =>
    if text.isPrefixOf path then matchPieces ps (path.drop text.length) else Option.none
  | .var name :: ps, path =>
    let seg := path.takeWhile (fun c => c ≠ '/')
    if seg = [] then Option.none
    else (matchPieces ps (path.dropWhile (fun c => c ≠ '/'))).map
      (fun vars => (String.mk name, String.mk seg) :: vars)

/-- The path matcher of a route: the variables when the path matches. -/
def matchPath (tpl path : String) : Option (List (String × String)) :=
  match parseTemplate tpl.data false [] with
  | Option.none => Option.none
  | some ps => matchPieces ps path.data

/-- A registered route: `router.HandleFunc(tpl, handler).Methods(methods...)`. -/
structure Route where
  tpl : String
  handler : HandlerId
  methods : List String
deriving DecidableEq

/-- The route table of `main`, in registration order. -/
def routes : List Route :=
  [ ⟨"/movies/", .GetMovies, ["GET"]⟩,
    ⟨"/movies/", .CreateMovie, ["POST"]⟩,
    ⟨"/movies/\x7bmovieID\x7d", .DeleteMovie, ["DELETE"]⟩,
    ⟨"/movies/", .DeleteMovies, ["DELETE"]⟩ ]

/-- Result of routing a request. -/
inductive Dispatch where
  | handler (h : HandlerId) (vars : List (String × String))
  | methodNotAllowed
  | notFound
deriving DecidableEq

/-- Go `Router.Match`: the first route whose path and method match; when only
paths matched, 405; else 404.  `mismatch` records a path match with the wrong
method among the routes already tried. -/
def Match : List Route → String → String → Bool → Dispatch
  | [], _, _, mismatch => if mismatch then .methodNotAllowed else .notFound
  | rt :: rest, method, path, mismatch =>
    match matchPath rt.tpl path with
    | Option.none => Match rest method path mismatch
    | some vars =>
      if rt.methods.contains method then .handler rt.handler vars
      else Match rest method path true

/-- The handler function behind a table entry. -/
def HandlerId.run : HandlerId → Faults → Request → Go Unit
  | .GetMovies => MovieAPI.GetMovies
  | .CreateMovie => MovieAPI.CreateMovie
  | .DeleteMovie => MovieAPI.DeleteMovie
  | .DeleteMovies => MovieAPI.DeleteMovies

/-- Go `Router.ServeHTTP` on the table of `main`: route, store the variables in
the request, call the handler.  An unrouted request runs no handler. -/
def ServeHTTP (env : Faults) (r : Request) (db : DB) : Outcome Unit :=
  match Match routes r.Method r.Path false with
  | .handler h vars => handle h.run env { r with Vars := vars } db
  | _ => .ret () { db := db, trace := [] }

/-- The slice that `GetMovies` builds of a table: nil when there is no row. -/
def moviesOf (rows : List Row) : Slice Movie :=
  match rows with
  | [] => Option.none
  | _ :: _ => some (rows.map (fun row => ⟨row.movie_id, row.movie_name⟩))

/-- The handler reaches its database calls on this request. -/
def reachesDB (h : HandlerId) (r : Request) : Prop :=
  match h with
  | .GetMovies => True
  | .CreateMovie => ¬ (r.FormValue "movieid" = "" ∨ r.FormValue "moviename" = "")
  | .DeleteMovie => r.Var "movieID" ≠ ""
  | .DeleteMovies => True

/-! ## Sample inputs -/

/-- A `GET /movies/` request. -/
def getReq : Request := ⟨"GET", "/movies/", [], []⟩

/-- A `POST /movies/` request with the two form values. -/
def postReq (movieid moviename : String) : Request :=
  ⟨"POST", "/movies/", [("movieid", [movieid]), ("moviename", [moviename])], []⟩

/-- A `DELETE /movies/{movieID}` request as the router hands it to the handler. -/
def deleteReq (movieID : String) : Request :=
  ⟨"DELETE", "/movies/" ++ movieID, [], [("movieID", movieID)]⟩

/-- A `DELETE /movies/` request. -/
def deleteAllReq : Request := ⟨"DELETE", "/movies/", [], []⟩

/-- The empty table. -/
def emptyDB : DB := ⟨[], 1⟩

/-- A table with one row. -/
def oneMovieDB : DB := ⟨[⟨1, "m1", "Inception"⟩], 2⟩

/-- A table with two rows. -/
def twoMovieDB : DB := ⟨[⟨1, "m1", "Inception"⟩, ⟨2, "m2", "Heat"⟩], 3⟩

/-- Every call fails: the faults of a database that is down. -/
def downFaults : Faults :=
  { open_ := some ⟨"sql: unknown driver"⟩, stmt := some ⟨"connection refused"⟩,
    next := fun _ => some ⟨"connection refused"⟩, scan := fun _ => some ⟨"connection refused"⟩ }

/-- The connection is lost while the second row is fetched: `rows.Next()`
returns false with the error kept in `rows.Err()`. -/
def lostConnection : Faults :=
  { open_ := Option.none, stmt := Option.none,
    next := fun i => if i = 1 then some ⟨"driver: bad connection"⟩ else Option.none,
    scan := fun _ => Option.none }

/-! ## Evaluation lemmas -/

/-- With no fault, the row loop appends every row to the slice and returns. -/
theorem scanRows_ok (rows : List Row) (i : Nat) (acc : Slice Movie) (w : World) :
    scanRows noFaults i rows acc w =
      .ret (rows.foldl (fun s row => s.append ⟨row.movie_id, row.movie_name⟩) acc) w := by
  induction rows generalizing i acc with
  | nil => rfl
  | cons row rest ih =>
    simp only [scanRows, noFaults, List.foldl_cons]
    exact ih (i + 1) _

/-- Appending rows one by one to a non-nil slice. -/
theorem foldl_append_some (rows : List Row) (xs : List Movie) :
    rows.foldl (fun (s : Slice Movie) row => s.append ⟨row.movie_id, row.movie_name⟩) (some xs)
      = some (xs ++ rows.map (fun row => ⟨row.movie_id, row.movie_name⟩)) := by
  induction rows generalizing xs with
  | nil => simp
  | cons row rest ih =>
    rw [List.foldl_cons]
    show List.foldl _ (some (xs ++ [_])) rest = _
    rw [ih]
    simp

/-- Appending rows one by one, from the nil slice. -/
theorem foldl_append_none (rows : List Row) :
    rows.foldl (fun (s : Slice Movie) row => s.append ⟨row.movie_id, row.movie_name⟩) Option.none
      = moviesOf rows := by
  cases rows with
  | nil => rfl
  | cons row rest =>
    rw [List.foldl_cons]
    show List.foldl _ (some [_]) rest = _
    rw [foldl_append_some]
    simp [moviesOf]

/-- The row loop ends in the world it started in, whatever the faults. -/
theorem scanRows_world (env : Faults) (rows : List Row) (i : Nat) (acc : Slice Movie)
    (w : World) :
    (∃ d, scanRows env i rows acc w = .ret d w) ∨ (∃ e, scanRows env i rows acc w = .panic e w) := by
  induction rows generalizing i acc with
  | nil => exact Or.inl ⟨acc, rfl⟩
  | cons row rest ih =>
    unfold scanRows
    cases hn : env.next i with
    | some e => exact Or.inl ⟨acc, rfl⟩
    | none =>
      cases hs : env.scan i with
      | some e => exact Or.inr ⟨e, by simp [bind, Go.bind, checkErr, hs]⟩
      | none =>
        simp only [bind, Go.bind, checkErr, hs]
        exact ih (i + 1) _

/-- Handler `GetMovies` with no fault: one success envelope with the table's movies. -/
theorem GetMovies_ok (r : Request) (db : DB) :
    handle GetMovies noFaults r db =
      .ret () { db := db, trace :=
        [.sqlOpen, .println "", .println "Getting Movies...", .println "",
         .sqlStmt .selectAll, .encode { «Type» := "success", Data := moviesOf db.movies }] } := by
  simp only [handle, GetMovies, setupDB, printMessage, dbRun, checkErr, emit, bind, Go.bind, pure, Go.pure,
    DB.exec, scanRows_ok, foldl_append_none]
  rfl

/-- Handler `CreateMovie` when a form value is missing: the error envelope and nothing else. -/
theorem CreateMovie_missing (env : Faults) (r : Request) (db : DB)
    (h : r.FormValue "movieid" = "" ∨ r.FormValue "moviename" = "") :
    handle CreateMovie env r db =
      .ret () { db := db, trace :=
        [.encode { «Type» := "error", Message := "You are missing MovieID or MovieName" }] } := by
  simp [handle, CreateMovie, emit, bind, Go.bind, pure, Go.pure, h]

/-- Handler `CreateMovie` with both form values and no fault: the row is appended. -/
theorem CreateMovie_ok (r : Request) (db : DB)
    (h1 : r.FormValue "movieid" ≠ "") (h2 : r.FormValue "moviename" ≠ "") :
    handle CreateMovie noFaults r db =
      .ret () { db := (db.exec (.insert (r.FormValue "movieid") (r.FormValue "moviename"))).1,
                trace :=
        [.sqlOpen, .println "", .println "Inserting Movie into DB...", .println "",
         .println ("Inserting new movie with ID: " ++ r.FormValue "movieid" ++ " and name: "
            ++ r.FormValue "moviename"),
         .sqlStmt (.insert (r.FormValue "movieid") (r.FormValue "moviename")),
         .encode { «Type» := "success", Message := "Movie has been successfully inserted" }] } := by
  simp [handle, CreateMovie, setupDB, printMessage, dbRun, checkErr, emit, bind, Go.bind, pure, Go.pure,
    h1, h2, noFaults]

/-- Handler `DeleteMovie` without the route variable: the error envelope and nothing else. -/
theorem DeleteMovie_missing (env : Faults) (r : Request) (db : DB) (h : r.Var "movieID" = "") :
    handle DeleteMovie env r db =
      .ret () { db := db, trace := [.encode { «Type» := "error", Message := "Missing Movie Id" }] } := by
  simp [handle, DeleteMovie, emit, bind, Go.bind, pure, Go.pure, h]

/-- Handler `DeleteMovie` with the route variable and no fault: the rows with that id go. -/
theorem DeleteMovie_ok (r : Request) (db : DB) (h : r.Var "movieID" ≠ "") :
    handle DeleteMovie noFaults r db =
      .ret () { db := (db.exec (.deleteWhere (r.Var "movieID"))).1, trace :=
        [.sqlOpen, .println "", .println "Deleting movie from DB...", .println "",
         .sqlStmt (.deleteWhere (r.Var "movieID")),
         .encode { «Type» := "success", Message := "Successfully deleted movie from DB" }] } := by
  simp [handle, DeleteMovie, setupDB, printMessage, dbRun, checkErr, emit, bind, Go.bind, pure, Go.pure,
    h, noFaults]

/-- Handler `DeleteMovies` with no fault: the table is emptied. -/
theorem DeleteMovies_ok (r : Request) (db : DB) :
    handle DeleteMovies noFaults r db =
      .ret () { db := (db.exec .deleteAll).1, trace :=
        [.sqlOpen, .println "", .println "Deleting all movies...", .println "",
         .sqlStmt .deleteAll,
         .println "", .println "All movies have been deleted successfully", .println "",
         .encode { «Type» := "success",
                   Message := "All movies have been deleted successfully" }] } := by
  simp [handle, DeleteMovies, setupDB, printMessage, dbRun, checkErr, emit, bind, Go.bind, pure, Go.pure,
    noFaults]

/-- The JSON document of an envelope: all three keys, always. -/
theorem JsonResponse_encode_eq (r : JsonResponse) :
    r.encode = .obj [("type", .str r.«Type»), ("data", encodeMovies r.Data),
                     ("message", .str r.Message)] := by
  have h1 : jsonField ⟨"Type", "json:\"type\""⟩ = some ("type", false) := by rfl
  have h2 : jsonField ⟨"Data", "json:\"data\""⟩ = some ("data", false) := by rfl
  have h3 : jsonField ⟨"Message", "json:\"message\""⟩ = some ("message", false) := by rfl
  simp [JsonResponse.encode, JsonResponse.fields, withValues, encodeStruct, h1, h2, h3]

/-- The JSON document of a movie: the keys are the Go field names. -/
theorem Movie_encode_eq (m : Movie) :
    m.encode = .obj [("MovieID", .str m.MovieID), ("MovieName", .str m.MovieName)] := by
  have h1 : jsonField ⟨"MovieID", "\"json:movieid\""⟩ = some ("MovieID", false) := by rfl
  have h2 : jsonField ⟨"MovieName", "\"json:moviename\""⟩ = some ("MovieName", false) := by rfl
  simp [Movie.encode, Movie.fields, withValues, encodeStruct, h1, h2]

/-! ## The claims -/

/-- C1: when form value `movieid` or `moviename` is empty or absent, `CreateMovie`
writes exactly the envelope of type "error" with message "You are missing MovieID
or MovieName", makes no database access (neither `setupDB` nor the INSERT), leaves
the table as it was, and returns; this for every table and whatever the state of
the database. -/
theorem C1_CreateMovie_missing_field (env : Faults) (r : Request) (db : DB)
    (h : r.FormValue "movieid" = "" ∨ r.FormValue "moviename" = "") :
    envelopes (handle CreateMovie env r db).world.trace =
        [{ «Type» := "error", Message := "You are missing MovieID or MovieName" }] ∧
      (handle CreateMovie env r db).world.trace.filter Event.isDB = [] ∧
      (handle CreateMovie env r db).world.db = db ∧
      (handle CreateMovie env r db).panicked = Option.none := by
  rw [CreateMovie_missing env r db h]
  simp [Outcome.world, Outcome.panicked, envelopes, Event.isDB]

/-- Witness of C1: an empty `movieid` against a table with one row and a database
that is down. -/
theorem C1_CreateMovie_missing_field_witness :
    ((postReq "" "Inception").FormValue "movieid" = "" ∨
        (postReq "" "Inception").FormValue "moviename" = "") ∧
      (envelopes (handle CreateMovie downFaults (postReq "" "Inception") oneMovieDB).world.trace =
        [{ «Type» := "error", Message := "You are missing MovieID or MovieName" }] ∧
      (handle CreateMovie downFaults (postReq "" "Inception") oneMovieDB).world.trace.filter
        Event.isDB = [] ∧
      (handle CreateMovie downFaults (postReq "" "Inception") oneMovieDB).world.db = oneMovieDB ∧
      (handle CreateMovie downFaults (postReq "" "Inception") oneMovieDB).panicked = Option.none) :=
  ⟨Or.inl (by decide),
   C1_CreateMovie_missing_field downFaults (postReq "" "Inception") oneMovieDB (Or.inl (by decide))⟩

/-- C2, as stated, fails: on the empty table the body of `GetMovies` is not the
document `{"type":"success","data":[]}`. -/
theorem C2_counterexample :
    body (handle GetMovies noFaults getReq emptyDB).world.trace ≠
      [.obj [("type", .str "success"), ("data", .arr [])]] := by
  rw [GetMovies_ok]
  simp [Outcome.world, body, envelopes, JsonResponse_encode_eq, emptyDB, moviesOf, encodeMovies]

/-- C2, amended: when the table has no rows and the database reports no error,
`GetMovies` returns and the body it writes is the one document
`{"type":"success","data":null,"message":""}`: `data` is present and null (the
slice is nil), and `message` is present and empty. -/
theorem C2_GetMovies_empty_table (env : Faults) (r : Request) (db : DB)
    (hdb : db.movies = []) (ho : env.open_ = Option.none) (hs : env.stmt = Option.none) :
    (handle GetMovies env r db).panicked = Option.none ∧
      body (handle GetMovies env r db).world.trace =
        [.obj [("type", .str "success"), ("data", .null), ("message", .str "")]] := by
  simp [handle, GetMovies, setupDB, printMessage, dbRun, checkErr, emit, bind, Go.bind, pure,
    Go.pure, DB.exec, hdb, ho, hs, scanRows, Outcome.world, Outcome.panicked, body, envelopes,
    JsonResponse_encode_eq, encodeMovies]

/-- Witness of C2 (amended): the empty table, no fault. -/
theorem C2_GetMovies_empty_table_witness :
    emptyDB.movies = [] ∧ noFaults.open_ = Option.none ∧ noFaults.stmt = Option.none ∧
      ((handle GetMovies noFaults getReq emptyDB).panicked = Option.none ∧
       body (handle GetMovies noFaults getReq emptyDB).world.trace =
        [.obj [("type", .str "success"), ("data", .null), ("message", .str "")]]) :=
  ⟨rfl, rfl, rfl, C2_GetMovies_empty_table noFaults getReq emptyDB rfl rfl rfl⟩

/-- C3 (the code departs from it): the JSON object of a `Movie` has the keys
`MovieID` and `MovieName`, the Go field names, not `movieid` and `moviename`:
the tags of `Movie` are not of the form `json:"name"` and are ignored.  The
values are the row's `movie_id` and `movie_name`.  Shown for every movie, and
on the body of `GetMovies` for a table with one row. -/
theorem C3_Movie_json_keys :
    (∀ m : Movie, m.encode = .obj [("MovieID", .str m.MovieID), ("MovieName", .str m.MovieName)]) ∧
      (∀ m : Movie, m.encode.member "movieid" = Option.none ∧
        m.encode.member "moviename" = Option.none) ∧
      body (handle GetMovies noFaults getReq oneMovieDB).world.trace =
        [.obj [("type", .str "success"),
               ("data", .arr [.obj [("MovieID", .str "m1"), ("MovieName", .str "Inception")]]),
               ("message", .str "")]] := by
  refine ⟨Movie_encode_eq, fun m => ?_, ?_⟩
  · rw [Movie_encode_eq]
    constructor <;> simp [JSON.member, List.lookup]
  · rw [GetMovies_ok]
    simp [Outcome.world, body, envelopes, JsonResponse_encode_eq, oneMovieDB, moviesOf,
      encodeMovies, Movie_encode_eq]

/-- C4: for non-empty form values `movieid` and `moviename`, `CreateMovie` on an
empty table, with no database error, returns after writing the envelope of type
"success" with message "Movie has been successfully inserted", and a following
`GetMovies` writes an envelope whose data list has exactly one entry, with the
submitted `MovieID` and `MovieName`. -/
theorem C4_create_then_list (r g : Request) (n : Int)
    (h1 : r.FormValue "movieid" ≠ "") (h2 : r.FormValue "moviename" ≠ "") :
    (handle CreateMovie noFaults r ⟨[], n⟩).panicked = Option.none ∧
      envelopes (handle CreateMovie noFaults r ⟨[], n⟩).world.trace =
        [{ «Type» := "success", Message := "Movie has been successfully inserted" }] ∧
      (handle GetMovies noFaults g
          (handle CreateMovie noFaults r ⟨[], n⟩).world.db).panicked = Option.none ∧
      envelopes (handle GetMovies noFaults g
          (handle CreateMovie noFaults r ⟨[], n⟩).world.db).world.trace =
        [{ «Type» := "success",
           Data := some [⟨r.FormValue "movieid", r.FormValue "moviename"⟩] }] := by
  rw [CreateMovie_ok r _ h1 h2]
  simp only [Outcome.world, GetMovies_ok]
  simp [Outcome.world, Outcome.panicked, envelopes, DB.exec, moviesOf]

/-- Witness of C4: `movieid = "m1"`, `moviename = "Inception"`. -/
theorem C4_create_then_list_witness :
    (postReq "m1" "Inception").FormValue "movieid" ≠ "" ∧
      (postReq "m1" "Inception").FormValue "moviename" ≠ "" ∧
      envelopes (handle GetMovies noFaults getReq
          (handle CreateMovie noFaults (postReq "m1" "Inception") ⟨[], 1⟩).world.db).world.trace =
        [{ «Type» := "success", Data := some [⟨"m1", "Inception"⟩] }] :=
  ⟨by decide, by decide,
   (C4_create_then_list (postReq "m1" "Inception") getReq 1 (by decide) (by decide)).2.2.2⟩

/-- C5: for every table and every non-empty `movieID`, with no database error,
after `DeleteMovie` the table holds exactly the rows whose `movie_id` differs
from `movieID`, unchanged and in their order (the filter of the table), and the
`id` sequence is as before.  In particular, after two movies with distinct ids
are created on an empty table and one of them is deleted by id, `GetMovies`
lists exactly the other. -/
theorem C5_DeleteMovie_frame (db : DB) (d : Request) (hd : d.Var "movieID" ≠ "") :
    ((handle DeleteMovie noFaults d db).world.db.movies =
        db.movies.filter (fun row => row.movie_id ≠ d.Var "movieID") ∧
      (handle DeleteMovie noFaults d db).world.db.nextID = db.nextID) ∧
    ∀ (c1 c2 g : Request) (n : Int),
      c1.FormValue "movieid" ≠ "" → c1.FormValue "moviename" ≠ "" →
      c2.FormValue "movieid" ≠ "" → c2.FormValue "moviename" ≠ "" →
      c1.FormValue "movieid" ≠ c2.FormValue "movieid" →
      (d.Var "movieID" = c1.FormValue "movieid" →
        envelopes (handle GetMovies noFaults g
          (handle DeleteMovie noFaults d
            (handle CreateMovie noFaults c2
              (handle CreateMovie noFaults c1 ⟨[], n⟩).world.db).world.db).world.db).world.trace =
          [{ «Type» := "success",
             Data := some [⟨c2.FormValue "movieid", c2.FormValue "moviename"⟩] }]) ∧
      (d.Var "movieID" = c2.FormValue "movieid" →
        envelopes (handle GetMovies noFaults g
          (handle DeleteMovie noFaults d
            (handle CreateMovie noFaults c2
              (handle CreateMovie noFaults c1 ⟨[], n⟩).world.db).world.db).world.db).world.trace =
          [{ «Type» := "success",
             Data := some [⟨c1.FormValue "movieid", c1.FormValue "moviename"⟩] }]) := by
  refine ⟨?_, ?_⟩
  · rw [DeleteMovie_ok d db hd]
    simp [Outcome.world, DB.exec]
  · intro c1 c2 g n h11 h12 h21 h22 hne
    rw [CreateMovie_ok c1 _ h11 h12]
    simp only [Outcome.world]
    rw [CreateMovie_ok c2 _ h21 h22]
    simp only [Outcome.world]
    rw [DeleteMovie_ok d _ hd, GetMovies_ok]
    constructor <;> intro hv <;>
      simp [Outcome.world, envelopes, DB.exec, moviesOf, hv, List.filter, hne, Ne.symm hne]

/-- Witness of C5: delete `m1` from a table of two rows; create `m1` and `m2`,
delete `m1`, list. -/
theorem C5_DeleteMovie_frame_witness :
    (deleteReq "m1").Var "movieID" ≠ "" ∧
      (handle DeleteMovie noFaults (deleteReq "m1") twoMovieDB).world.db.movies =
        twoMovieDB.movies.filter (fun row => row.movie_id ≠ (deleteReq "m1").Var "movieID") ∧
      envelopes (handle GetMovies noFaults getReq
        (handle DeleteMovie noFaults (deleteReq "m1")
          (handle CreateMovie noFaults (postReq "m2" "Heat")
            (handle CreateMovie noFaults (postReq "m1" "Inception")
              ⟨[], 1⟩).world.db).world.db).world.db).world.trace =
        [{ «Type» := "success", Data := some [⟨"m2", "Heat"⟩] }] :=
  ⟨by decide,
   (C5_DeleteMovie_frame twoMovieDB (deleteReq "m1") (by decide)).1.1,
   ((C5_DeleteMovie_frame twoMovieDB (deleteReq "m1") (by decide)).2
      (postReq "m1" "Inception") (postReq "m2" "Heat") getReq 1
      (by decide) (by decide) (by decide) (by decide) (by decide)).1 (by decide)⟩

/-- C6, as stated, fails: after `DeleteMovies` on a table with one row, the `data`
of the body that a following `GetMovies` writes is null, not an empty array, and
the envelope's `Data` is the nil slice, not an empty non-nil one. -/
theorem C6_counterexample :
    (body (handle GetMovies noFaults getReq
        (handle DeleteMovies noFaults deleteAllReq oneMovieDB).world.db).world.trace).map
      (JSON.member "data") ≠ [some (.arr [])] ∧
    envelopes (handle GetMovies noFaults getReq
        (handle DeleteMovies noFaults deleteAllReq oneMovieDB).world.db).world.trace ≠
      [{ «Type» := "success", Data := some [] }] := by
  rw [DeleteMovies_ok]
  simp only [Outcome.world, GetMovies_ok]
  simp [Outcome.world, body, envelopes, JsonResponse_encode_eq, DB.exec, moviesOf, encodeMovies,
    JSON.member, List.lookup]

/-- C6, amended: for every prior table, with no database error, `DeleteMovies`
returns after writing the success envelope with message "All movies have been
deleted successfully" and leaves the table with no rows; a following `GetMovies`
then writes a success envelope that carries no movie: its `Data` is the nil
slice, written as `"data":null`. -/
theorem C6_DeleteMovies_clears (db : DB) (r g : Request) :
    (handle DeleteMovies noFaults r db).panicked = Option.none ∧
      envelopes (handle DeleteMovies noFaults r db).world.trace =
        [{ «Type» := "success", Message := "All movies have been deleted successfully" }] ∧
      (handle DeleteMovies noFaults r db).world.db.movies = [] ∧
      envelopes (handle GetMovies noFaults g
          (handle DeleteMovies noFaults r db).world.db).world.trace =
        [{ «Type» := "success", Data := Option.none }] ∧
      body (handle GetMovies noFaults g
          (handle DeleteMovies noFaults r db).world.db).world.trace =
        [.obj [("type", .str "success"), ("data", .null), ("message", .str "")]] := by
  rw [DeleteMovies_ok]
  simp only [Outcome.world, GetMovies_ok]
  simp [Outcome.world, Outcome.panicked, body, envelopes, JsonResponse_encode_eq, DB.exec,
    moviesOf, encodeMovies]

/-- C7: for a non-empty `movieID` and no database error, `DeleteMovie` writes the
same envelope (type "success", message "Successfully deleted movie from DB")
whether or not a row has that `movie_id`; when no row has it the table is
unchanged; and a second `DeleteMovie` of the same `movieID` writes the same
envelope and leaves the same table as the first. -/
theorem C7_DeleteMovie_idempotent (db : DB) (r : Request) (h : r.Var "movieID" ≠ "") :
    envelopes (handle DeleteMovie noFaults r db).world.trace =
        [{ «Type» := "success", Message := "Successfully deleted movie from DB" }] ∧
      ((∀ row ∈ db.movies, row.movie_id ≠ r.Var "movieID") →
        (handle DeleteMovie noFaults r db).world.db = db) ∧
      envelopes (handle DeleteMovie noFaults r
          (handle DeleteMovie noFaults r db).world.db).world.trace =
        envelopes (handle DeleteMovie noFaults r db).world.trace ∧
      (handle DeleteMovie noFaults r
          (handle DeleteMovie noFaults r db).world.db).world.db =
        (handle DeleteMovie noFaults r db).world.db := by
  simp only [DeleteMovie_ok _ _ h, Outcome.world]
  refine ⟨by simp [envelopes], fun hno => ?_, by simp [envelopes], ?_⟩
  · cases db with
    | mk movies nextID =>
      simp only [DB.exec]
      congr 1
      rw [List.filter_eq_self]
      intro row hrow
      simpa using hno row hrow
  · simp [DB.exec, List.filter_filter]

/-- Witness of C7: delete `m2`, present in the table of two rows, and delete `m9`,
absent from it. -/
theorem C7_DeleteMovie_idempotent_witness :
    (deleteReq "m2").Var "movieID" ≠ "" ∧ (deleteReq "m9").Var "movieID" ≠ "" ∧
      envelopes (handle DeleteMovie noFaults (deleteReq "m2") twoMovieDB).world.trace =
        envelopes (handle DeleteMovie noFaults (deleteReq "m9") twoMovieDB).world.trace ∧
      (handle DeleteMovie noFaults (deleteReq "m9") twoMovieDB).world.db = twoMovieDB :=
  ⟨by decide, by decide,
   ((C7_DeleteMovie_idempotent twoMovieDB (deleteReq "m2") (by decide)).1).trans
     ((C7_DeleteMovie_idempotent twoMovieDB (deleteReq "m9") (by decide)).1).symm,
   (C7_DeleteMovie_idempotent twoMovieDB (deleteReq "m9") (by decide)).2.1 (by decide)⟩

/-- What `GetMovies` writes, whatever the faults: nothing, or one success
envelope with an empty message. -/
theorem GetMovies_envelopes (env : Faults) (r : Request) (db : DB) :
    envelopes (handle GetMovies env r db).world.trace = [] ∨
      ∃ d, envelopes (handle GetMovies env r db).world.trace =
        [{ «Type» := "success", Data := d, Message := "" }] := by
  cases ho : env.open_ with
  | some e =>
    left
    simp [handle, GetMovies, setupDB, checkErr, emit, bind, Go.bind, ho, Outcome.world, envelopes]
  | none =>
    cases hs : env.stmt with
    | some e =>
      left
      simp [handle, GetMovies, setupDB, printMessage, dbRun, checkErr, emit, bind, Go.bind, ho,
        hs, Outcome.world, envelopes]
    | none =>
      simp only [handle, GetMovies, setupDB, printMessage, dbRun, checkErr, emit, bind, Go.bind,
        ho, hs, DB.exec]
      rcases scanRows_world env db.movies 0 Option.none _ with ⟨d, hd⟩ | ⟨e, he⟩
      · right
        exact ⟨d, by rw [hd]; simp [Outcome.world, envelopes]⟩
      · left
        rw [he]
        simp [Outcome.world, envelopes]

/-- What `CreateMovie` writes, whatever the faults: nothing, or one of its two
envelopes. -/
theorem CreateMovie_envelopes (env : Faults) (r : Request) (db : DB) :
    envelopes (handle CreateMovie env r db).world.trace = [] ∨
      envelopes (handle CreateMovie env r db).world.trace =
        [{ «Type» := "error", Message := "You are missing MovieID or MovieName" }] ∨
      envelopes (handle CreateMovie env r db).world.trace =
        [{ «Type» := "success", Message := "Movie has been successfully inserted" }] := by
  by_cases h : r.FormValue "movieid" = "" ∨ r.FormValue "moviename" = ""
  · right; left
    rw [CreateMovie_missing env r db h]
    simp [Outcome.world, envelopes]
  · cases ho : env.open_ <;> cases hs : env.stmt <;>
      simp [handle, CreateMovie, setupDB, printMessage, dbRun, checkErr, emit, bind, Go.bind,
        pure, Go.pure, h, ho, hs, Outcome.world, envelopes]

/-- What `DeleteMovie` writes when the route variable is not empty, whatever the
faults: nothing, or the success envelope. -/
theorem DeleteMovie_envelopes (env : Faults) (r : Request) (db : DB) (h : r.Var "movieID" ≠ "") :
    envelopes (handle DeleteMovie env r db).world.trace = [] ∨
      envelopes (handle DeleteMovie env r db).world.trace =
        [{ «Type» := "success", Message := "Successfully deleted movie from DB" }] := by
  cases ho : env.open_ <;> cases hs : env.stmt <;>
    simp [handle, DeleteMovie, setupDB, printMessage, dbRun, checkErr, emit, bind, Go.bind,
      pure, Go.pure, h, ho, hs, Outcome.world, envelopes]

/-- What `DeleteMovies` writes, whatever the faults: nothing, or its envelope. -/
theorem DeleteMovies_envelopes (env : Faults) (r : Request) (db : DB) :
    envelopes (handle DeleteMovies env r db).world.trace = [] ∨
      envelopes (handle DeleteMovies env r db).world.trace =
        [{ «Type» := "success", Message := "All movies have been deleted successfully" }] := by
  cases ho : env.open_ <;> cases hs : env.stmt <;>
    simp [handle, DeleteMovies, setupDB, printMessage, dbRun, checkErr, emit, bind, Go.bind,
      pure, Go.pure, ho, hs, Outcome.world, envelopes]

/-- C8: for each of the four handlers, every request, table and state of the
database, an envelope that is written has `Type` "success" or "error" and does
not carry both a data list and a non-empty message: an envelope of `GetMovies`
has an empty `Message`, an envelope of any other handler has no `Data` (the nil
slice). -/
theorem C8_envelope_invariant (h : HandlerId) (env : Faults) (r : Request) (db : DB)
    (resp : JsonResponse) (hr : resp ∈ envelopes (handle (h.run) env r db).world.trace) :
    (resp.«Type» = "success" ∨ resp.«Type» = "error") ∧
      ¬ (resp.Data ≠ Option.none ∧ resp.Message ≠ "") ∧
      (h = .GetMovies → resp.Message = "") ∧
      (h ≠ .GetMovies → resp.Data = Option.none) := by
  cases h with
  | GetMovies =>
    rcases GetMovies_envelopes env r db with h0 | ⟨d, h1⟩
    · simp [HandlerId.run, h0] at hr
    · simp only [HandlerId.run, h1, List.mem_singleton] at hr
      subst hr
      simp
  | CreateMovie =>
    rcases CreateMovie_envelopes env r db with h0 | h1 | h1
    · simp [HandlerId.run, h0] at hr
    · simp only [HandlerId.run, h1, List.mem_singleton] at hr
      subst hr
      simp
    · simp only [HandlerId.run, h1, List.mem_singleton] at hr
      subst hr
      simp
  | DeleteMovie =>
    by_cases hv : r.Var "movieID" = ""
    · simp only [HandlerId.run, DeleteMovie_missing env r db hv, Outcome.world, envelopes,
        List.filterMap_cons, List.filterMap_nil, List.mem_singleton] at hr
      subst hr
      simp
    · rcases DeleteMovie_envelopes env r db hv with h0 | h1
      · simp [HandlerId.run, h0] at hr
      · simp only [HandlerId.run, h1, List.mem_singleton] at hr
        subst hr
        simp
  | DeleteMovies =>
    rcases DeleteMovies_envelopes env r db with h0 | h1
    · simp [HandlerId.run, h0] at hr
    · simp only [HandlerId.run, h1, List.mem_singleton] at hr
      subst hr
      simp

/-- Witness of C8: the envelope that `GetMovies` writes for the table of two rows. -/
theorem C8_envelope_invariant_witness :
    ({ «Type» := "success", Data := some [⟨"m1", "Inception"⟩, ⟨"m2", "Heat"⟩] } : JsonResponse) ∈
        envelopes (handle (HandlerId.GetMovies.run) noFaults getReq twoMovieDB).world.trace ∧
      ¬ ((some [⟨"m1", "Inception"⟩, ⟨"m2", "Heat"⟩] : Slice Movie) ≠ Option.none ∧ "" ≠ "") :=
  ⟨by decide,
   (C8_envelope_invariant .GetMovies noFaults getReq twoMovieDB
      { «Type» := "success", Data := some [⟨"m1", "Inception"⟩, ⟨"m2", "Heat"⟩] }
      (by decide)).2.1⟩

/-- A string built of a non-empty list of characters is not the empty string. -/
theorem mk_ne_empty (cs : List Char) (h : cs ≠ []) : String.mk cs ≠ "" := by
  intro heq
  exact h (congrArg String.data heq)

/-- The template `/movies/` binds no variable. -/
theorem matchPath_movies (p : String) (vars : List (String × String))
    (h : matchPath "/movies/" p = some vars) : vars = [] := by
  have hp : parseTemplate "/movies/".data false [] = some [.lit "/movies/".data] := by rfl
  simp only [matchPath, hp, matchPieces] at h
  split at h
  · split at h
    · exact (Option.some.inj h).symm
    · cases h
  · cases h

/-- The template `/movies/{movieID}` binds `movieID` to a non-empty segment. -/
theorem matchPath_movieID (p : String) (vars : List (String × String))
    (h : matchPath "/movies/\x7bmovieID\x7d" p = some vars) :
    ∃ seg, seg ≠ [] ∧ vars = [("movieID", String.mk seg)] := by
  have hp : parseTemplate "/movies/\x7bmovieID\x7d".data false [] =
      some [.lit "/movies/".data, .var "movieID".data] := by rfl
  simp only [matchPath, hp, matchPieces] at h
  split at h
  · split at h
    · cases h
    · rename_i hseg
      split at h
      · exact ⟨_, hseg, (Option.some.inj h).symm⟩
      · cases h
  · cases h

/-- A request routed to `DeleteMovie` is a DELETE and carries a non-empty
`movieID`. -/
theorem Match_DeleteMovie (method path : String) (vars : List (String × String))
    (h : Match routes method path false = .handler .DeleteMovie vars) :
    method = "DELETE" ∧ ∃ seg, seg ≠ [] ∧ vars = [("movieID", String.mk seg)] := by
  simp only [routes, Match] at h
  repeat' split at h
  all_goals cases h
  all_goals
    exact ⟨by simpa using (by assumption : ["DELETE"].contains method = true),
      matchPath_movieID _ _ (by assumption)⟩

/-- C9: under the four routes of `main`, a request that the router dispatches to
`DeleteMovie` is a DELETE whose `movieID` variable is not empty, so the handler
never writes the "Missing Movie Id" envelope for it; and a DELETE of exactly
`/movies/` is dispatched to `DeleteMovies`, with no variable. -/
theorem C9_DeleteMovie_routed_with_id (r : Request) (vars : List (String × String))
    (env : Faults) (db : DB)
    (h : Match routes r.Method r.Path false = .handler .DeleteMovie vars) :
    r.Method = "DELETE" ∧
      ({ r with Vars := vars } : Request).Var "movieID" ≠ "" ∧
      ServeHTTP env r db = handle DeleteMovie env { r with Vars := vars } db ∧
      ({ «Type» := "error", Message := "Missing Movie Id" } : JsonResponse) ∉
        envelopes (ServeHTTP env r db).world.trace ∧
      Match routes "DELETE" "/movies/" false = .handler .DeleteMovies [] ∧
      ServeHTTP env deleteAllReq db = handle DeleteMovies env deleteAllReq db := by
  obtain ⟨hm, seg, hseg, hvars⟩ := Match_DeleteMovie _ _ _ h
  have hvar : ({ r with Vars := vars } : Request).Var "movieID" ≠ "" := by
    subst hvars
    simpa [Request.Var, List.lookup] using mk_ne_empty seg hseg
  have hserve : ServeHTTP env r db = handle DeleteMovie env { r with Vars := vars } db := by
    simp [ServeHTTP, h, HandlerId.run]
  refine ⟨hm, hvar, hserve, ?_, by decide, ?_⟩
  · rw [hserve]
    rcases DeleteMovie_envelopes env _ db hvar with h0 | h1
    · simp [h0]
    · simp [h1]
  · have hd : Match routes deleteAllReq.Method deleteAllReq.Path false =
        .handler .DeleteMovies [] := by decide
    simp only [ServeHTTP, hd, HandlerId.run]
    rfl

/-- Witness of C9: `DELETE /movies/m1`. -/
theorem C9_DeleteMovie_routed_with_id_witness :
    Match routes (deleteReq "m1").Method (deleteReq "m1").Path false =
        .handler .DeleteMovie [("movieID", "m1")] ∧
      ({ deleteReq "m1" with Vars := [("movieID", "m1")] } : Request).Var "movieID" ≠ "" :=
  ⟨by decide,
   (C9_DeleteMovie_routed_with_id (deleteReq "m1") [("movieID", "m1")] noFaults twoMovieDB
      (by decide)).2.1⟩

/-- An error of `sql.Open` is the panic of the handler: no statement is sent, no
envelope is written, the table is as before. -/
theorem open_error_panics (h : HandlerId) (env : Faults) (r : Request) (db : DB) (e : GoError)
    (hreach : reachesDB h r) (ho : env.open_ = some e) :
    handle (h.run) env r db = .panic e { db := db, trace := [.sqlOpen] } := by
  cases h <;>
    simp_all [reachesDB, HandlerId.run, handle, GetMovies, CreateMovie, DeleteMovie, DeleteMovies,
      setupDB, checkErr, emit, bind, Go.bind]

/-- An error of the statement is the panic of the handler: the statement was
sent once, no envelope is written, the table is as before. -/
theorem stmt_error_panics (h : HandlerId) (env : Faults) (r : Request) (db : DB) (e : GoError)
    (hreach : reachesDB h r) (ho : env.open_ = Option.none) (hs : env.stmt = some e) :
    (handle (h.run) env r db).panicked = some e ∧
      envelopes (handle (h.run) env r db).world.trace = [] ∧
      (statements (handle (h.run) env r db).world.trace).length = 1 ∧
      (handle (h.run) env r db).world.db = db := by
  cases h <;>
    simp_all [reachesDB, HandlerId.run, handle, GetMovies, CreateMovie, DeleteMovie, DeleteMovies,
      setupDB, printMessage, dbRun, checkErr, emit, bind, Go.bind, Outcome.world,
      Outcome.panicked, envelopes, statements]

/-- An error of `rows.Scan` on the first row is the panic of `GetMovies`: no
envelope is written. -/
theorem scan_error_panics (env : Faults) (r : Request) (db : DB) (e : GoError) (row : Row)
    (rest : List Row) (hdb : db.movies = row :: rest)
    (ho : env.open_ = Option.none) (hs : env.stmt = Option.none) (hn : env.next 0 = Option.none)
    (hsc : env.scan 0 = some e) :
    (handle GetMovies env r db).panicked = some e ∧
      envelopes (handle GetMovies env r db).world.trace = [] := by
  simp [handle, GetMovies, setupDB, printMessage, dbRun, checkErr, emit, bind, Go.bind,
    DB.exec, hdb, ho, hs, hn, hsc, scanRows, Outcome.world, Outcome.panicked, envelopes]

/-- C10 (the code departs from it): a database error met by `rows.Next()` while
the rows are read does not reach `checkErr`.  On a table of two rows, with the
connection lost while the second row is fetched, `GetMovies` does not panic and
writes a success envelope that lists the first row only. -/
theorem C10_rows_error_not_propagated :
    lostConnection.next 1 = some ⟨"driver: bad connection"⟩ ∧
      (handle GetMovies lostConnection getReq twoMovieDB).panicked = Option.none ∧
      envelopes (handle GetMovies lostConnection getReq twoMovieDB).world.trace =
        [{ «Type» := "success", Data := some [⟨"m1", "Inception"⟩] }] := by
  refine ⟨rfl, rfl, ?_⟩
  decide

end MovieAPI
